import Mathlib

/-!
Verification of the GCRA rate-limiter core of the `governor` crate.

The decision algorithm (`Gcra::test_and_update`, `Gcra::test_n_all_and_update`,
`NotUntil`) is embedded from `src/governor/src/gcra.rs`.  The supporting types
(`Nanos`, `Quota`, `StateSnapshot`, `InsufficientCapacity`) and the state-store
primitive `measure_and_replace` are not part of the sources provided under
`src/`, so they are modelled from the specification, as noted on each
definition.  Clock reference instants are instantiated at `Nanos` (the crate's
own reference type), so instants and durations are natural numbers of
nanoseconds throughout.
-/

/-- Modelled from the spec: `Nanos` (the time representation) is a 64-bit
unsigned count of nanoseconds; this is the largest representable value,
`2 ^ 64 - 1`. -/
def NANOS_MAX : Nat := 18446744073709551615

namespace Nanos

/-- Modelled from the spec: `Nanos` addition saturates at the maximum
representable value instead of wrapping or panicking. -/
def satAdd (a b : Nat) : Nat := min (a + b) NANOS_MAX

/-- Modelled from the spec: `Nanos` subtraction saturates at zero
(truncated subtraction); this is the source's `saturating_sub`. -/
def satSub (a b : Nat) : Nat := a - b

/-- Modelled from the spec: `Nanos` multiplication by a non-negative integer
scalar saturates at the maximum representable value. -/
def satMul (a k : Nat) : Nat := min (a * k) NANOS_MAX

end Nanos

/-- Modelled from the spec: the outcome snapshot `(t, tau, tat_at_decision,
next_tat)` handed to the middleware hooks (`StateSnapshot::new` takes the
four fields in this order, cf. the calls in `gcra.rs`). -/
structure StateSnapshot where
  t : Nat
  tau : Nat
  timeOfMeasurement : Nat
  tat : Nat
deriving DecidableEq, Repr

/-- A negative rate-limiting outcome (`NotUntil` in `gcra.rs`): the snapshot
at the decision plus the reference instant `start` of the decision. -/
structure NotUntil where
  state : StateSnapshot
  start : Nat
deriving DecidableEq, Repr

/-- `NotUntil::earliest_possible` from `gcra.rs`: `self.start + self.state.tat`. -/
def NotUntil.earliestPossible (nu : NotUntil) : Nat :=
  Nanos.satAdd nu.start nu.state.tat

/-- `NotUntil::wait_time_from` from `gcra.rs`:
`earliest.duration_since(earliest.min(from))`, where `duration_since` on the
`Nanos` reference type is saturating subtraction. -/
def NotUntil.waitTimeFrom (nu : NotUntil) (f : Nat) : Nat :=
  Nanos.satSub nu.earliestPossible (min nu.earliestPossible f)

/-- Modelled from the spec: the `InsufficientCapacity` error carries the
maximum batch size that could ever be accommodated, as a `u32`. -/
structure InsufficientCapacity where
  maxCells : Nat
deriving DecidableEq, Repr

/-- Modelled from the spec: the user-facing quota, a replenishment interval
(in nanoseconds, positive) and a maximum burst size (a positive `u32`). -/
structure Quota where
  replenish1Per : Nat
  maxBurst : Nat
deriving DecidableEq, Repr

/-- The GCRA parameters from `gcra.rs`: `t` is the weight of one cell and
`tau` the tolerance, both in units of time. -/
structure Gcra where
  t : Nat
  tau : Nat
deriving DecidableEq, Repr

/-- `Gcra::new` from `gcra.rs`: `t = max(replenish_1_per, 1ns)` and
`tau = t * (max_burst - 1)`. -/
def Gcra.new (q : Quota) : Gcra :=
  { t := max q.replenish1Per 1
    tau := Nanos.satMul (max q.replenish1Per 1) (q.maxBurst - 1) }

/-- Modelled from the spec: the reverse conversion
`Quota::from_gcra_parameters(t, tau)` (used by the round-trip property):
`replenish_1_per = t`, `max_burst = tau / t + 1`. -/
def Quota.fromGcraParameters (t tau : Nat) : Quota :=
  { replenish1Per := t, maxBurst := tau / t + 1 }

/-- Modelled from the spec: the state store's `measure_and_replace` for one
key, in a sequential view (stored state passed and returned explicitly).
The update function has type `Option<Nanos> -> Result<(R, Nanos), E>`; the
error variant carries no replacement state, so the stored value is replaced
exactly on the `ok` path and left unchanged on the error path. -/
def measureAndReplace {E R : Type} (stored : Option Nat)
    (f : Option Nat → Except E (R × Nat)) : Except E R × Option Nat :=
  match f stored with
  | .ok (r, newState) => (.ok r, some newState)
  | .error e => (.error e, stored)

/-- The decision closure of `Gcra::test_and_update` (`gcra.rs` lines 115-131),
with the middleware instantiated to the snapshot-passing one: `allow` returns
the snapshot, `disallow` returns `NotUntil::new(snapshot, start)`. -/
def Gcra.updateFn (g : Gcra) (start t0 : Nat) (tatOpt : Option Nat) :
    Except NotUntil (StateSnapshot × Nat) :=
  let tat := tatOpt.getD t0
  let earliestTime := Nanos.satSub tat g.tau
  if t0 < earliestTime then
    .error { state := ⟨g.t, g.tau, earliestTime, earliestTime⟩, start := start }
  else
    let next := Nanos.satAdd (max tat t0) g.t
    .ok (⟨g.t, g.tau, t0, next⟩, next)

/-- `Gcra::test_and_update` from `gcra.rs`: converts the arrival instant to an
offset `t0 = t0abs.duration_since(start)` and runs the decision closure through
the store's `measure_and_replace`.  Returns the outcome and the new stored
state. -/
def Gcra.testAndUpdate (g : Gcra) (start t0abs : Nat) (stored : Option Nat) :
    Except NotUntil StateSnapshot × Option Nat :=
  measureAndReplace stored (g.updateFn start (Nanos.satSub t0abs start))

/-- The decision closure of `Gcra::test_n_all_and_update` (`gcra.rs` lines
160-176), parameterised by the precomputed `additional_weight`. -/
def Gcra.updateFnN (g : Gcra) (start t0 aw : Nat) (tatOpt : Option Nat) :
    Except NotUntil (StateSnapshot × Nat) :=
  let tat := tatOpt.getD t0
  let earliestTime := Nanos.satSub (Nanos.satAdd tat aw) g.tau
  if t0 < earliestTime then
    .error { state := ⟨g.t, g.tau, earliestTime, earliestTime⟩, start := start }
  else
    let next := Nanos.satAdd (Nanos.satAdd (max tat t0) g.t) aw
    .ok (⟨g.t, g.tau, t0, next⟩, next)

/-- `Gcra::test_n_all_and_update` from `gcra.rs`: computes
`additional_weight = t * (n - 1)`; if it exceeds `tau`, fails up front with
`InsufficientCapacity(1 + (tau / t) as u32)` (the `u32` casts are modelled by
`% 2 ^ 32`) without touching the store; otherwise runs the batched closure
through `measure_and_replace`. -/
def Gcra.testNAllAndUpdate (g : Gcra) (start n t0abs : Nat)
    (stored : Option Nat) :
    Except InsufficientCapacity (Except NotUntil StateSnapshot) × Option Nat :=
  let t0 := Nanos.satSub t0abs start
  let aw := Nanos.satMul g.t (n - 1)
  if g.tau < aw then
    (.error ⟨(1 + g.tau / g.t % 2 ^ 32) % 2 ^ 32⟩, stored)
  else
    let r := measureAndReplace stored (g.updateFnN start t0 aw)
    (.ok r.1, r.2)

/-- `true` exactly on the error (denied / insufficient-capacity) variant. -/
def exceptIsError {E R : Type} : Except E R → Bool
  | .error _ => true
  | .ok _ => false

/-- Runs a sequence of single-cell tests against one key, threading the
stored state; returns the list of outcomes and the final stored state. -/
def runSeq (g : Gcra) (start : Nat) (arrivals : List Nat) (stored : Option Nat) :
    List (Except NotUntil StateSnapshot) × Option Nat :=
  match arrivals with
  | [] => ([], stored)
  | a :: more =>
    let r := g.testAndUpdate start a stored
    let rest := runSeq g start more r.2
    (r.1 :: rest.1, rest.2)

/-! ### Branch lemmas for the single-cell test -/

theorem testAndUpdate_deny (g : Gcra) (start t0abs : Nat) (stored : Option Nat)
    (h : Nanos.satSub t0abs start <
      Nanos.satSub (stored.getD (Nanos.satSub t0abs start)) g.tau) :
    g.testAndUpdate start t0abs stored =
      (.error ⟨⟨g.t, g.tau,
          Nanos.satSub (stored.getD (Nanos.satSub t0abs start)) g.tau,
          Nanos.satSub (stored.getD (Nanos.satSub t0abs start)) g.tau⟩, start⟩,
        stored) := by
  simp [Gcra.testAndUpdate, measureAndReplace, Gcra.updateFn, h]

theorem testAndUpdate_allow (g : Gcra) (start t0abs : Nat) (stored : Option Nat)
    (h : Nanos.satSub (stored.getD (Nanos.satSub t0abs start)) g.tau ≤
      Nanos.satSub t0abs start) :
    g.testAndUpdate start t0abs stored =
      (.ok ⟨g.t, g.tau, Nanos.satSub t0abs start,
          Nanos.satAdd (max (stored.getD (Nanos.satSub t0abs start))
            (Nanos.satSub t0abs start)) g.t⟩,
        some (Nanos.satAdd (max (stored.getD (Nanos.satSub t0abs start))
          (Nanos.satSub t0abs start)) g.t)) := by
  simp [Gcra.testAndUpdate, measureAndReplace, Gcra.updateFn, Nat.not_lt.mpr h]

/-- C1: a single-cell test with arrival offset `t0` and stored state `old_tat`
(defaulting to `t0` when absent) is denied exactly when
`t0 < earliest_time = saturating_sub(tat, tau)`; otherwise it is allowed, the
new stored state is `next = max(tat, t0) + t`, and the allow outcome carries
the snapshot `(t, tau, t0, next)`. -/
theorem c1_single_cell_decision (g : Gcra) (start t0abs : Nat)
    (stored : Option Nat) :
    ((exceptIsError (g.testAndUpdate start t0abs stored).1 = true) ↔
      Nanos.satSub t0abs start <
        Nanos.satSub (stored.getD (Nanos.satSub t0abs start)) g.tau) ∧
    (Nanos.satSub (stored.getD (Nanos.satSub t0abs start)) g.tau ≤
        Nanos.satSub t0abs start →
      g.testAndUpdate start t0abs stored =
        (.ok ⟨g.t, g.tau, Nanos.satSub t0abs start,
            Nanos.satAdd (max (stored.getD (Nanos.satSub t0abs start))
              (Nanos.satSub t0abs start)) g.t⟩,
          some (Nanos.satAdd (max (stored.getD (Nanos.satSub t0abs start))
            (Nanos.satSub t0abs start)) g.t))) := by
  by_cases h : Nanos.satSub t0abs start <
      Nanos.satSub (stored.getD (Nanos.satSub t0abs start)) g.tau
  · refine ⟨?_, fun h2 => absurd h (Nat.not_lt.mpr h2)⟩
    rw [testAndUpdate_deny g start t0abs stored h]
    simpa [exceptIsError] using h
  · have h' := Nat.not_lt.mp h
    refine ⟨?_, fun _ => testAndUpdate_allow g start t0abs stored h'⟩
    rw [testAndUpdate_allow g start t0abs stored h']
    simpa [exceptIsError] using h

/-- Witness for C1: with `t = 2`, `tau = 3`, no stored state and arrival
offset 5, the test is allowed with snapshot `(2, 3, 5, 7)` and new state 7. -/
theorem c1_single_cell_decision_witness :
    Nanos.satSub ((none : Option Nat).getD (Nanos.satSub 5 0)) 3 ≤
        Nanos.satSub 5 0 ∧
    Gcra.testAndUpdate ⟨2, 3⟩ 0 5 none = (.ok ⟨2, 3, 5, 7⟩, some 7) :=
  ⟨by decide, (c1_single_cell_decision ⟨2, 3⟩ 0 5 none).2 (by decide)⟩

/-- C10: on a key with no stored state, a single-cell test at any arrival
offset `t0` is always allowed, with snapshot `(t, tau, t0, t0 + t)` and new
stored state `t0 + t`, because the default `tat = t0` gives
`earliest_time = saturating_sub(t0, tau) ≤ t0`. -/
theorem c10_fresh_key_always_allowed (g : Gcra) (start t0abs : Nat) :
    Nanos.satSub (Nanos.satSub t0abs start) g.tau ≤ Nanos.satSub t0abs start ∧
    g.testAndUpdate start t0abs none =
      (.ok ⟨g.t, g.tau, Nanos.satSub t0abs start,
          Nanos.satAdd (Nanos.satSub t0abs start) g.t⟩,
        some (Nanos.satAdd (Nanos.satSub t0abs start) g.t)) := by
  have h : Nanos.satSub (Nanos.satSub t0abs start) g.tau ≤
      Nanos.satSub t0abs start := Nat.sub_le _ _
  refine ⟨h, ?_⟩
  have h2 := testAndUpdate_allow g start t0abs none (by simpa using h)
  simpa using h2

/-- C2 as stated is false: after this denied test the stored state is the old
`tat` (100), not `earliest_time = saturating_sub(100, 5) = 95`; a denial does
not commit a new state. -/
theorem c2_counterexample :
    exceptIsError (Gcra.testAndUpdate ⟨10, 5⟩ 0 0 (some 100)).1 = true ∧
    (Gcra.testAndUpdate ⟨10, 5⟩ 0 0 (some 100)).2 ≠ some 95 := by
  exact ⟨by decide, by decide⟩

/-- C2 (amended): on a denied single-cell test the decision closure returns
only the negative outcome (no new state is paired with it), so the store
leaves the stored state unchanged; the deny outcome is built from the
snapshot `(t, tau, earliest_time, earliest_time)` and the decision instant
`start`. -/
theorem c2_deny_keeps_state (g : Gcra) (start t0abs : Nat) (stored : Option Nat)
    (h : Nanos.satSub t0abs start <
      Nanos.satSub (stored.getD (Nanos.satSub t0abs start)) g.tau) :
    g.testAndUpdate start t0abs stored =
      (.error ⟨⟨g.t, g.tau,
          Nanos.satSub (stored.getD (Nanos.satSub t0abs start)) g.tau,
          Nanos.satSub (stored.getD (Nanos.satSub t0abs start)) g.tau⟩, start⟩,
        stored) :=
  testAndUpdate_deny g start t0abs stored h

/-- Witness for the amended C2: with `t = 10`, `tau = 5`, stored `tat = 100`
and arrival offset 0, the test is denied with snapshot `(10, 5, 95, 95)` and
the stored state stays 100. -/
theorem c2_deny_keeps_state_witness :
    Nanos.satSub 0 0 <
        Nanos.satSub ((some 100 : Option Nat).getD (Nanos.satSub 0 0)) 5 ∧
    Gcra.testAndUpdate ⟨10, 5⟩ 0 0 (some 100) =
      (.error ⟨⟨10, 5, 95, 95⟩, 0⟩, some 100) :=
  ⟨by decide, c2_deny_keeps_state ⟨10, 5⟩ 0 0 (some 100) (by decide)⟩

/-- C6: for a denial with snapshot `tat` and decision instant `start`,
`earliest_possible() = start + tat`, and for every instant `from`,
`wait_time_from(from) = earliest_possible() - min(earliest_possible(), from)`;
the wait is exactly zero whenever `from` is at or past `earliest_possible()`
(and, being a natural number of nanoseconds, it is never negative). -/
theorem c6_wait_time_from (nu : NotUntil) (f : Nat) :
    nu.earliestPossible = Nanos.satAdd nu.start nu.state.tat ∧
    nu.waitTimeFrom f =
      Nanos.satSub nu.earliestPossible (min nu.earliestPossible f) ∧
    (nu.earliestPossible ≤ f → nu.waitTimeFrom f = 0) := by
  refine ⟨rfl, rfl, fun h => ?_⟩
  simp [NotUntil.waitTimeFrom, Nanos.satSub, min_eq_left h]

/-- Witness for C6: a denial with `tat = 5` decided at instant 3 has
earliest-possible 8, and the wait from instant 100 is zero. -/
theorem c6_wait_time_from_witness :
    NotUntil.earliestPossible ⟨⟨1, 1, 5, 5⟩, 3⟩ ≤ 100 ∧
    NotUntil.waitTimeFrom ⟨⟨1, 1, 5, 5⟩, 3⟩ 100 = 0 :=
  ⟨by decide, (c6_wait_time_from ⟨⟨1, 1, 5, 5⟩, 3⟩ 100).2.2 (by decide)⟩

/-! ### Branch lemmas for the batched test -/

theorem testNAll_capacity_error (g : Gcra) (start n t0abs : Nat)
    (stored : Option Nat) (h : g.tau < Nanos.satMul g.t (n - 1)) :
    g.testNAllAndUpdate start n t0abs stored =
      (.error ⟨(1 + g.tau / g.t % 2 ^ 32) % 2 ^ 32⟩, stored) := by
  simp [Gcra.testNAllAndUpdate, h]

theorem testNAll_deny (g : Gcra) (start n t0abs : Nat) (stored : Option Nat)
    (hcap : Nanos.satMul g.t (n - 1) ≤ g.tau)
    (h : Nanos.satSub t0abs start <
      Nanos.satSub
        (Nanos.satAdd (stored.getD (Nanos.satSub t0abs start))
          (Nanos.satMul g.t (n - 1))) g.tau) :
    g.testNAllAndUpdate start n t0abs stored =
      (.ok (.error ⟨⟨g.t, g.tau,
          Nanos.satSub
            (Nanos.satAdd (stored.getD (Nanos.satSub t0abs start))
              (Nanos.satMul g.t (n - 1))) g.tau,
          Nanos.satSub
            (Nanos.satAdd (stored.getD (Nanos.satSub t0abs start))
              (Nanos.satMul g.t (n - 1))) g.tau⟩, start⟩),
        stored) := by
  simp [Gcra.testNAllAndUpdate, measureAndReplace, Gcra.updateFnN,
    Nat.not_lt.mpr hcap, h]

theorem testNAll_allow (g : Gcra) (start n t0abs : Nat) (stored : Option Nat)
    (hcap : Nanos.satMul g.t (n - 1) ≤ g.tau)
    (h : Nanos.satSub
        (Nanos.satAdd (stored.getD (Nanos.satSub t0abs start))
          (Nanos.satMul g.t (n - 1))) g.tau ≤
      Nanos.satSub t0abs start) :
    g.testNAllAndUpdate start n t0abs stored =
      (.ok (.ok ⟨g.t, g.tau, Nanos.satSub t0abs start,
          Nanos.satAdd
            (Nanos.satAdd (max (stored.getD (Nanos.satSub t0abs start))
              (Nanos.satSub t0abs start)) g.t) (Nanos.satMul g.t (n - 1))⟩),
        some (Nanos.satAdd
          (Nanos.satAdd (max (stored.getD (Nanos.satSub t0abs start))
            (Nanos.satSub t0abs start)) g.t) (Nanos.satMul g.t (n - 1)))) := by
  simp [Gcra.testNAllAndUpdate, measureAndReplace, Gcra.updateFnN,
    Nat.not_lt.mpr hcap, Nat.not_lt.mpr h]

/-- C3: a batched test of `n` cells with
`additional_weight = t * (n - 1) ≤ tau` follows the single-cell rule with the
compound weight folded into `earliest_time`: it is denied exactly when
`t0 < earliest_time`, where `earliest_time = saturating_sub(tat +
additional_weight, tau)`, which equals the single-cell formula with `tau`
reduced by `additional_weight` (whenever the sum does not saturate); on allow
the new stored state is `next = max(tat, t0) + t + additional_weight`, and on
deny the stored state is untouched — all `n` cells are admitted together or
none are. -/
theorem c3_batch_compound_decision (g : Gcra) (start n t0abs : Nat)
    (stored : Option Nat) (hcap : Nanos.satMul g.t (n - 1) ≤ g.tau) :
    (Nanos.satSub t0abs start <
        Nanos.satSub
          (Nanos.satAdd (stored.getD (Nanos.satSub t0abs start))
            (Nanos.satMul g.t (n - 1))) g.tau →
      g.testNAllAndUpdate start n t0abs stored =
        (.ok (.error ⟨⟨g.t, g.tau,
            Nanos.satSub
              (Nanos.satAdd (stored.getD (Nanos.satSub t0abs start))
                (Nanos.satMul g.t (n - 1))) g.tau,
            Nanos.satSub
              (Nanos.satAdd (stored.getD (Nanos.satSub t0abs start))
                (Nanos.satMul g.t (n - 1))) g.tau⟩, start⟩),
          stored)) ∧
    (Nanos.satSub
        (Nanos.satAdd (stored.getD (Nanos.satSub t0abs start))
          (Nanos.satMul g.t (n - 1))) g.tau ≤
        Nanos.satSub t0abs start →
      g.testNAllAndUpdate start n t0abs stored =
        (.ok (.ok ⟨g.t, g.tau, Nanos.satSub t0abs start,
            Nanos.satAdd
              (Nanos.satAdd (max (stored.getD (Nanos.satSub t0abs start))
                (Nanos.satSub t0abs start)) g.t) (Nanos.satMul g.t (n - 1))⟩),
          some (Nanos.satAdd
            (Nanos.satAdd (max (stored.getD (Nanos.satSub t0abs start))
              (Nanos.satSub t0abs start)) g.t) (Nanos.satMul g.t (n - 1))))) ∧
    (stored.getD (Nanos.satSub t0abs start) + Nanos.satMul g.t (n - 1) ≤
        NANOS_MAX →
      Nanos.satSub
          (Nanos.satAdd (stored.getD (Nanos.satSub t0abs start))
            (Nanos.satMul g.t (n - 1))) g.tau =
        Nanos.satSub (stored.getD (Nanos.satSub t0abs start))
          (g.tau - Nanos.satMul g.t (n - 1))) := by
  refine ⟨fun h => testNAll_deny g start n t0abs stored hcap h,
    fun h => testNAll_allow g start n t0abs stored hcap h, fun hfit => ?_⟩
  have hadd : Nanos.satAdd (stored.getD (Nanos.satSub t0abs start))
      (Nanos.satMul g.t (n - 1)) =
      stored.getD (Nanos.satSub t0abs start) + Nanos.satMul g.t (n - 1) :=
    min_eq_left hfit
  rw [hadd]
  unfold Nanos.satSub
  omega

/-- Witness for C3: with `t = 2`, `tau = 4`, a batch of 3 cells on a fresh
key at offset 0 is allowed as a whole, with new stored state
`0 + 2 + 4 = 6`. -/
theorem c3_batch_compound_decision_witness :
    Nanos.satMul 2 (3 - 1) ≤ 4 ∧
    Gcra.testNAllAndUpdate ⟨2, 4⟩ 0 3 0 none =
      (.ok (.ok ⟨2, 4, 0, 6⟩), some 6) :=
  ⟨by decide,
    (c3_batch_compound_decision ⟨2, 4⟩ 0 3 0 none (by decide)).2.1 (by decide)⟩

/-- C4: a batched test with `additional_weight = t * (n - 1) > tau` returns
the outer `InsufficientCapacity` error carrying `1 + tau / t` and leaves the
stored state unchanged (the store is never consulted); when
`additional_weight ≤ tau` no `InsufficientCapacity` error is returned. -/
theorem c4_insufficient_capacity (g : Gcra) (start n t0abs : Nat)
    (stored : Option Nat) (hn : 1 ≤ n) (hn32 : n < 2 ^ 32) :
    (g.tau < Nanos.satMul g.t (n - 1) →
      g.testNAllAndUpdate start n t0abs stored =
        (.error ⟨1 + g.tau / g.t⟩, stored)) ∧
    (Nanos.satMul g.t (n - 1) ≤ g.tau →
      exceptIsError (g.testNAllAndUpdate start n t0abs stored).1 = false) := by
  constructor
  · intro h
    have h1 : g.tau < g.t * (n - 1) :=
      lt_of_lt_of_le h (min_le_left _ _)
    have ht : 0 < g.t := by
      rcases Nat.eq_zero_or_pos g.t with h0 | h0
      · rw [h0] at h1
        simp at h1
      · exact h0
    have hdiv : g.tau / g.t < n - 1 := by
      rw [Nat.div_lt_iff_lt_mul ht]
      rw [Nat.mul_comm] at h1
      exact h1
    have hm1 : g.tau / g.t % 2 ^ 32 = g.tau / g.t :=
      Nat.mod_eq_of_lt (by omega)
    have hm2 : (1 + g.tau / g.t) % 2 ^ 32 = 1 + g.tau / g.t :=
      Nat.mod_eq_of_lt (by omega)
    rw [testNAll_capacity_error g start n t0abs stored h, hm1, hm2]
  · intro h
    simp [Gcra.testNAllAndUpdate, measureAndReplace, Nat.not_lt.mpr h,
      exceptIsError]

/-- Witness for C4: with `t = 1`, `tau = 3`, a batch of 5 cells can never be
admitted; the call fails with `InsufficientCapacity(4)` and the (absent)
stored state is untouched. -/
theorem c4_insufficient_capacity_witness :
    (1 ≤ 5 ∧ 5 < 2 ^ 32) ∧
    Gcra.testNAllAndUpdate ⟨1, 3⟩ 0 5 0 none = (.error ⟨4⟩, none) :=
  ⟨⟨by decide, by decide⟩,
    (c4_insufficient_capacity ⟨1, 3⟩ 0 5 0 none (by decide) (by decide)).1
      (by decide)⟩

/-- C9: for `n = 1` the batched test never takes the outer
`InsufficientCapacity` exit, and its inner result and new stored state are
exactly those of the single-cell test on the same arguments. -/
theorem c9_batch_one_refines_single (g : Gcra) (start t0abs : Nat)
    (stored : Option Nat)
    (htat : stored.getD (Nanos.satSub t0abs start) ≤ NANOS_MAX) :
    g.testNAllAndUpdate start 1 t0abs stored =
      (.ok (g.testAndUpdate start t0abs stored).1,
        (g.testAndUpdate start t0abs stored).2) := by
  have e1 : Nanos.satMul g.t (1 - 1) = 0 := by
    simp [Nanos.satMul, NANOS_MAX]
  have e2 : Nanos.satAdd (stored.getD (Nanos.satSub t0abs start)) 0 =
      stored.getD (Nanos.satSub t0abs start) := by
    simp [Nanos.satAdd]
    exact htat
  have e3 : ∀ x : Nat, Nanos.satAdd (Nanos.satAdd x g.t) 0 =
      Nanos.satAdd x g.t := by
    intro x
    simp [Nanos.satAdd]
  simp only [Gcra.testNAllAndUpdate, Gcra.testAndUpdate, measureAndReplace,
    Gcra.updateFnN, Gcra.updateFn, e1, e2, e3]
  simp

/-- Witness for C9: with `t = 3`, `tau = 1`, stored `tat = 2` and arrival
offset 7, the batch of one and the single-cell test agree: allowed with
snapshot `(3, 1, 7, 10)` and new stored state 10. -/
theorem c9_batch_one_refines_single_witness :
    (some 2 : Option Nat).getD (Nanos.satSub 7 0) ≤ NANOS_MAX ∧
    Gcra.testNAllAndUpdate ⟨3, 1⟩ 0 1 7 (some 2) =
      (.ok (.ok ⟨3, 1, 7, 10⟩), some 10) :=
  ⟨by decide, by
    rw [c9_batch_one_refines_single ⟨3, 1⟩ 0 7 (some 2) (by decide)]
    rfl⟩

/-- C5 as stated is false: for the valid quota with
`replenish_1_per = 2 ^ 63` nanoseconds and `max_burst = 4294967295`,
`tau = t * (max_burst - 1)` saturates at the largest `Nanos` value, and the
reverse conversion yields `max_burst = 2`, not the original quota. -/
theorem c5_counterexample :
    Quota.fromGcraParameters (Gcra.new ⟨9223372036854775808, 4294967295⟩).t
        (Gcra.new ⟨9223372036854775808, 4294967295⟩).tau ≠
      ⟨9223372036854775808, 4294967295⟩ := by
  decide

/-- C5 (amended): for every valid quota (`replenish_1_per ≥ 1ns`,
`max_burst ≥ 1`) whose derived tolerance does not saturate, i.e.
`replenish_1_per * (max_burst - 1) ≤ NANOS_MAX`, converting to GCRA
parameters (`t = max(replenish_1_per, 1ns)`, `tau = t * (max_burst - 1)`) and
back (`replenish_1_per = t`, `max_burst = tau / t + 1`) reproduces the
original quota exactly. -/
theorem c5_quota_roundtrip (q : Quota) (hrep : 1 ≤ q.replenish1Per)
    (hburst : 1 ≤ q.maxBurst)
    (hfit : q.replenish1Per * (q.maxBurst - 1) ≤ NANOS_MAX) :
    Quota.fromGcraParameters (Gcra.new q).t (Gcra.new q).tau = q := by
  have ht : max q.replenish1Per 1 = q.replenish1Per := max_eq_left hrep
  have htau : Nanos.satMul q.replenish1Per (q.maxBurst - 1) =
      q.replenish1Per * (q.maxBurst - 1) := min_eq_left hfit
  simp only [Gcra.new, Quota.fromGcraParameters, ht, htau]
  rw [Nat.mul_div_cancel_left _ hrep]
  have hb : q.maxBurst - 1 + 1 = q.maxBurst := by omega
  rw [hb]

/-- Witness for the amended C5: the quota "replenish one per 5ns, burst 3"
round-trips exactly through `(t, tau) = (5, 10)`. -/
theorem c5_quota_roundtrip_witness :
    (1 ≤ 5 ∧ 1 ≤ 3 ∧ 5 * (3 - 1) ≤ NANOS_MAX) ∧
    Quota.fromGcraParameters (Gcra.new ⟨5, 3⟩).t (Gcra.new ⟨5, 3⟩).tau =
      ⟨5, 3⟩ :=
  ⟨⟨by decide, by decide, by decide⟩,
    c5_quota_roundtrip ⟨5, 3⟩ (by decide) (by decide) (by decide)⟩

/-- C7: under the quota "1 per second, burst 10" (so `t = 10^9` ns and
`tau = 9 * 10^9` ns), starting from no stored state, ten single-cell tests
all at arrival offset 0 are all allowed, and the eleventh at offset 0 is
denied with `earliest_possible = 0 + 10^9` ns, i.e. one second after `t0`. -/
theorem c7_burst_of_ten :
    runSeq (Gcra.new ⟨1000000000, 10⟩) 0
        [0, 0, 0, 0, 0, 0, 0, 0, 0, 0, 0] none =
      ([.ok ⟨1000000000, 9000000000, 0, 1000000000⟩,
        .ok ⟨1000000000, 9000000000, 0, 2000000000⟩,
        .ok ⟨1000000000, 9000000000, 0, 3000000000⟩,
        .ok ⟨1000000000, 9000000000, 0, 4000000000⟩,
        .ok ⟨1000000000, 9000000000, 0, 5000000000⟩,
        .ok ⟨1000000000, 9000000000, 0, 6000000000⟩,
        .ok ⟨1000000000, 9000000000, 0, 7000000000⟩,
        .ok ⟨1000000000, 9000000000, 0, 8000000000⟩,
        .ok ⟨1000000000, 9000000000, 0, 9000000000⟩,
        .ok ⟨1000000000, 9000000000, 0, 10000000000⟩,
        .error ⟨⟨1000000000, 9000000000, 1000000000, 1000000000⟩, 0⟩],
       some 10000000000) ∧
    NotUntil.earliestPossible
        ⟨⟨1000000000, 9000000000, 1000000000, 1000000000⟩, 0⟩ =
      0 + 1000000000 :=
  ⟨rfl, rfl⟩

/-- C8: all `Nanos` arithmetic used by the engine is total and saturating:
subtraction of a larger value from a smaller one yields zero, addition and
scalar multiplication return the exact result when it is representable and
otherwise saturate at the largest representable value, and every result is
again a representable `Nanos` value (no operation can fail). -/
theorem c8_nanos_total_saturating (a b k : Nat) (ha : a ≤ NANOS_MAX) :
    (a ≤ b → Nanos.satSub a b = 0) ∧
    Nanos.satSub a b ≤ NANOS_MAX ∧
    (NANOS_MAX ≤ a + b → Nanos.satAdd a b = NANOS_MAX) ∧
    (a + b ≤ NANOS_MAX → Nanos.satAdd a b = a + b) ∧
    Nanos.satAdd a b ≤ NANOS_MAX ∧
    (NANOS_MAX ≤ a * k → Nanos.satMul a k = NANOS_MAX) ∧
    (a * k ≤ NANOS_MAX → Nanos.satMul a k = a * k) ∧
    Nanos.satMul a k ≤ NANOS_MAX :=
  ⟨fun h => Nat.sub_eq_zero_of_le h,
    le_trans (Nat.sub_le a b) ha,
    fun h => min_eq_right h,
    fun h => min_eq_left h,
    min_le_right _ _,
    fun h => min_eq_right h,
    fun h => min_eq_left h,
    min_le_right _ _⟩

/-- Witness for C8: at the largest representable value, adding 1 and
multiplying by 2 both saturate at the maximum instead of wrapping. -/
theorem c8_nanos_total_saturating_witness :
    NANOS_MAX ≤ NANOS_MAX ∧
    Nanos.satAdd NANOS_MAX 1 = NANOS_MAX ∧
    Nanos.satMul NANOS_MAX 2 = NANOS_MAX :=
  ⟨Nat.le_refl _,
    (c8_nanos_total_saturating NANOS_MAX 1 2 (Nat.le_refl _)).2.2.1
      (by decide),
    (c8_nanos_total_saturating NANOS_MAX 1 2 (Nat.le_refl _)).2.2.2.2.2.1
      (by decide)⟩
